import Mathlib

/-!
Shallow embedding of `src/server.js` (final revision: the one defining the
Cart endpoints, the admin login and the order endpoints at lines 420-628).

Modelling conventions:
* The MongoDB collections `orders` and `carts` are lists of records; a
  `findOne` is `List.find?` on the key predicate, a `findOneAndUpdate` updates
  the first matching document, `deleteOne` removes the first matching
  document, and an upsert appends when no document matches.
* `Math.floor(lo + Math.random() * span)` is modelled by `randomInRange` over
  a rational draw `u` standing for the value of `Math.random()` (so `0 ≤ u`
  and `u < 1`).
* JavaScript falsy coercion on an optional string (`!x`, `x || d`) is
  modelled by `jsOr`: both a missing value and the empty string select the
  fallback.
* Each HTTP handler is a function from the database (and its request inputs)
  to the new database paired with a response record carrying the HTTP status
  code (`http`) and the JSON body fields the handler writes.
* Cart items and order items are opaque payloads (`Array` in the schema), so
  the development is parametric in an item type `α`.
-/

namespace Equine

/-- JavaScript `x || d` / `if (!x) ...` on an optional string: the fallback is
taken when the value is absent or the empty string (both are falsy). -/
def jsOr (v : Option String) (d : String) : String :=
  match v with
  | none => d
  | some s => if s = "" then d else s

/-- `Math.floor(lo + u * span)` for a random draw `u` (value of `Math.random()`). -/
def randomInRange (lo span : Nat) (u : ℚ) : Nat :=
  (Int.floor ((lo : ℚ) + u * (span : ℚ))).toNat

/-- The `customer` subdocument of the order schema:
`{ name: {type: String, default: "Guest"}, email: String, address: String }`. -/
structure Customer where
  name : String
  email : Option String
  address : Option String
deriving Repr, DecidableEq

/-- An `Order` document (the mongoose `orderSchema` of the final revision). -/
structure Order (α : Type) where
  orderId : String
  customer : Customer
  items : List α
  paymentMethod : Option String
  deliveryMethod : Option String
  subtotal : Option Int
  shippingFee : Option Int
  total : Option Int
  status : String
  receiptImg : Option String
  createdAt : Nat
deriving Repr, DecidableEq

/-- A `Cart` document (the mongoose `cartSchema`). -/
structure Cart (α : Type) where
  sessionId : String
  items : List α
  updatedAt : Nat
deriving Repr, DecidableEq

/-- The persistent state: the two MongoDB collections. -/
structure DB (α : Type) where
  orders : List (Order α)
  carts : List (Cart α)
deriving Repr, DecidableEq

/-- `findOneAndUpdate`-style update of the first document matching `p`. -/
def updateFirst (p : β → Bool) (f : β → β) : List β → List β
  | [] => []
  | x :: xs => if p x then f x :: xs else x :: updateFirst p f xs

/-- `deleteOne`-style removal of the first document matching `p`. -/
def deleteFirst (p : β → Bool) : List β → List β
  | [] => []
  | x :: xs => if p x then xs else x :: deleteFirst p xs

/-- `Order.findOne({ orderId: oid })`. -/
def findOrder (db : DB α) (oid : String) : Option (Order α) :=
  db.orders.find? (fun o => o.orderId == oid)

/-- `Cart.findOne({ sessionId: sid })`. -/
def findCart (db : DB α) (sid : String) : Option (Cart α) :=
  db.carts.find? (fun c => c.sessionId == sid)

/-- The request body of `POST /api/orders` as the schema casts it: each schema
field may be present or absent in the JSON body. -/
structure OrderPayload (α : Type) where
  orderId : Option String
  customerName : Option String
  customerEmail : Option String
  customerAddress : Option String
  items : List α
  paymentMethod : Option String
  deliveryMethod : Option String
  subtotal : Option Int
  shippingFee : Option Int
  total : Option Int
  status : Option String
  receiptImg : Option String
  createdAt : Option Nat
deriving Repr, DecidableEq

/-- `new Order(orderData)` with the schema defaults applied
(`customer.name: "Guest"`, `status: 'Pending Verification'`,
`receiptImg: null`, `createdAt: Date.now`). -/
def mkOrder (p : OrderPayload α) (oid : String) (now : Nat) : Order α :=
  { orderId := oid
    customer := { name := p.customerName.getD "Guest"
                  email := p.customerEmail
                  address := p.customerAddress }
    items := p.items
    paymentMethod := p.paymentMethod
    deliveryMethod := p.deliveryMethod
    subtotal := p.subtotal
    shippingFee := p.shippingFee
    total := p.total
    status := p.status.getD "Pending Verification"
    receiptImg := p.receiptImg
    createdAt := p.createdAt.getD now }

/-- `'EQ-' + Math.floor(1000 + Math.random() * 9000) + '-' + Math.floor(100 + Math.random() * 900)`. -/
def randomRef (u1 u2 : ℚ) : String :=
  "EQ-" ++ toString (randomInRange 1000 9000 u1) ++ "-" ++ toString (randomInRange 100 900 u2)

/-- Response of `POST /api/orders`. -/
structure CreateResp (α : Type) where
  http : Nat
  success : Bool
  orderId : Option String
  order : Option (Order α)
  message : Option String
deriving Repr, DecidableEq

/-- `POST /api/orders`: generate an id when the supplied one is falsy, save the
new document (the unique index on `orderId` rejects a duplicate with an error
caught as a 500), answer 201 with the id and the created record. -/
def createOrder (db : DB α) (p : OrderPayload α) (u1 u2 : ℚ) (now : Nat) :
    DB α × CreateResp α :=
  let oid := jsOr p.orderId (randomRef u1 u2)
  let newOrder := mkOrder p oid now
  if (findOrder db oid).isSome then
    (db, { http := 500, success := false, orderId := none, order := none
           message := some "E11000 duplicate key error" })
  else
    ({ db with orders := db.orders ++ [newOrder] },
     { http := 201, success := true, orderId := some oid, order := some newOrder
       message := none })

/-- The file URL built by the upload handler:
`req.protocol + '://' + req.get('host') + '/uploads/' + req.file.filename`. -/
def mkFileUrl (protocol host filename : String) : String :=
  protocol ++ "://" ++ host ++ "/uploads/" ++ filename

/-- The `$set` applied by the upload handler:
`{ receiptImg: fileUrl, status: 'Pending Verification' }`. -/
def attachReceipt (fileUrl : String) (o : Order α) : Order α :=
  { o with receiptImg := some fileUrl, status := "Pending Verification" }

/-- Response of `POST /api/upload-receipt/:orderId`. -/
structure UploadResp (α : Type) where
  http : Nat
  success : Bool
  fileUrl : Option String
  order : Option (Order α)
  message : Option String
deriving Repr, DecidableEq

/-- `POST /api/upload-receipt/:orderId`: `file` is `req.file` (none when the
multipart body carried no file, in which case reading `.filename` throws and
the catch answers 500). Otherwise `findOneAndUpdate` with `{new: true}` and a
200 answer carrying the URL and the updated (possibly null) order. -/
def uploadReceipt (db : DB α) (oid : String) (file : Option String)
    (protocol host : String) : DB α × UploadResp α :=
  match file with
  | none =>
    (db, { http := 500, success := false, fileUrl := none, order := none
           message := some "Cannot read properties of undefined" })
  | some filename =>
    let fileUrl := mkFileUrl protocol host filename
    let db' : DB α :=
      { db with orders := updateFirst (fun o => o.orderId == oid) (attachReceipt fileUrl) db.orders }
    (db', { http := 200, success := true, fileUrl := some fileUrl
            order := findOrder db' oid, message := none })

/-- The `$set` applied by the status handler: `{ status: status }`. -/
def setStatus (s : String) (o : Order α) : Order α :=
  { o with status := s }

/-- Response of `PUT /api/admin/orders/:orderId/status`. -/
structure UpdateResp (α : Type) where
  http : Nat
  success : Bool
  order : Option (Order α)
deriving Repr, DecidableEq

/-- `PUT /api/admin/orders/:orderId/status`: `findOneAndUpdate` with
`{new: true}`, then 200 `{success: true, order: updatedOrder}` whether or not
a document matched. -/
def updateStatus (db : DB α) (oid s : String) : DB α × UpdateResp α :=
  let db' : DB α :=
    { db with orders := updateFirst (fun o => o.orderId == oid) (setStatus s) db.orders }
  (db', { http := 200, success := true, order := findOrder db' oid })

/-- Response of `GET /api/track/:orderId`. -/
structure TrackResp where
  http : Nat
  success : Bool
  message : Option String
  status : Option String
  customerName : Option String
  total : Option Int
  orderId : Option String
  createdAt : Option Nat
deriving Repr, DecidableEq

/-- `GET /api/track/:orderId`: 404 with "Order not found" on a miss, otherwise
200 with status, customer name, total, orderId and createdAt. Read-only. -/
def track (db : DB α) (oid : String) : TrackResp :=
  match findOrder db oid with
  | none =>
    { http := 404, success := false, message := some "Order not found"
      status := none, customerName := none, total := none
      orderId := none, createdAt := none }
  | some o =>
    { http := 200, success := true, message := none
      status := some o.status, customerName := some o.customer.name
      total := o.total, orderId := some o.orderId, createdAt := some o.createdAt }

/-- Response of `GET /api/cart/:sessionId`: the cart document, or the
synthesized `{ sessionId, items: [] }` (which carries no `updatedAt`). -/
structure CartGetResp (α : Type) where
  http : Nat
  sessionId : String
  items : List α
  updatedAt : Option Nat
deriving Repr, DecidableEq

/-- `GET /api/cart/:sessionId`: the stored cart, or a synthesized empty cart
when none exists; always 200. Read-only. -/
def cartGet (db : DB α) (sid : String) : CartGetResp α :=
  match findCart db sid with
  | none => { http := 200, sessionId := sid, items := [], updatedAt := none }
  | some c => { http := 200, sessionId := c.sessionId, items := c.items
                updatedAt := some c.updatedAt }

/-- Response of the cart write/delete and login endpoints' happy paths. -/
structure SimpleResp where
  http : Nat
  success : Bool
deriving Repr, DecidableEq

/-- `POST /api/cart/:sessionId`: upsert `{ items: req.body.items, updatedAt: Date.now() }`
for the session, then 200 `{success: true}`. -/
def cartReplace (db : DB α) (sid : String) (its : List α) (now : Nat) :
    DB α × SimpleResp :=
  let carts :=
    if (findCart db sid).isSome then
      updateFirst (fun c => c.sessionId == sid)
        (fun c => { c with items := its, updatedAt := now }) db.carts
    else
      db.carts ++ [{ sessionId := sid, items := its, updatedAt := now }]
  ({ db with carts := carts }, { http := 200, success := true })

/-- `DELETE /api/cart/:sessionId`: `deleteOne`, then 200 `{success: true}`
whether or not a cart existed. -/
def cartClear (db : DB α) (sid : String) : DB α × SimpleResp :=
  ({ db with carts := deleteFirst (fun c => c.sessionId == sid) db.carts },
   { http := 200, success := true })

/-- Response of `POST /api/admin/login`. -/
structure LoginResp where
  http : Nat
  success : Bool
  token : Option String
  message : Option String
deriving Repr, DecidableEq

/-- `POST /api/admin/login`: compare against
`process.env.ADMIN_PASSWORD || 'equineadmin123'`; on match 200 with the static
token, otherwise 401. `adminPassword` is the environment variable (absent when
unset). -/
def adminLogin (adminPassword : Option String) (password : String) : LoginResp :=
  let validPassword := jsOr adminPassword "equineadmin123"
  if password = validPassword then
    { http := 200, success := true, token := some "secure_admin_session_active"
      message := none }
  else
    { http := 401, success := false, token := none, message := some "Unauthorized" }

/-! ### Generic lemmas about the store operations -/

theorem updateFirst_of_find?_none (p : β → Bool) (f : β → β) (l : List β)
    (h : l.find? p = none) : updateFirst p f l = l := by
  induction l with
  | nil => rfl
  | cons x xs ih =>
    rw [List.find?_eq_none] at h
    have hx : ¬ p x = true := h x (by simp)
    simp only [updateFirst, if_neg hx]
    rw [ih]
    rw [List.find?_eq_none]
    intro y hy
    exact h y (by simp [hy])

theorem find?_updateFirst (p : β → Bool) (f : β → β) (l : List β)
    (hf : ∀ x, p x = true → p (f x) = true) :
    (updateFirst p f l).find? p = (l.find? p).map f := by
  induction l with
  | nil => rfl
  | cons x xs ih =>
    by_cases hx : p x = true
    · simp only [updateFirst, if_pos hx]
      rw [List.find?_cons_of_pos _ (hf x hx), List.find?_cons_of_pos _ hx]
      rfl
    · simp only [updateFirst, if_neg hx]
      rw [List.find?_cons_of_neg _ hx, List.find?_cons_of_neg _ hx, ih]

theorem length_updateFirst (p : β → Bool) (f : β → β) (l : List β) :
    (updateFirst p f l).length = l.length := by
  induction l with
  | nil => rfl
  | cons x xs ih =>
    by_cases hx : p x = true
    · simp [updateFirst, if_pos hx]
    · simp [updateFirst, if_neg hx, ih]

theorem forall2_updateFirst (R : β → β → Prop) (p : β → Bool) (f : β → β)
    (l : List β) (hrefl : ∀ x, R x x) (hf : ∀ x, R x (f x)) :
    List.Forall₂ R l (updateFirst p f l) := by
  induction l with
  | nil => exact List.Forall₂.nil
  | cons x xs ih =>
    by_cases hx : p x = true
    · simp only [updateFirst, if_pos hx]
      exact List.Forall₂.cons (hf x) (List.forall₂_same.mpr fun y _ => hrefl y)
    · simp only [updateFirst, if_neg hx]
      exact List.Forall₂.cons (hrefl x) ih

theorem forall2_trans_of_trans (R : β → β → Prop)
    (htrans : ∀ a b c, R a b → R b c → R a c) :
    ∀ {l1 l2 l3 : List β}, List.Forall₂ R l1 l2 → List.Forall₂ R l2 l3 →
      List.Forall₂ R l1 l3 := by
  intro l1 l2 l3 h12 h23
  induction h12 generalizing l3 with
  | nil => cases h23; exact List.Forall₂.nil
  | cons hab h12 ih =>
    cases h23 with
    | cons hbc h23 => exact List.Forall₂.cons (htrans _ _ _ hab hbc) (ih h23)

/-- Bounds of the generated random integer: for a draw `u` with
`0 ≤ u < 1`, `Math.floor(lo + u * span)` lies in `[lo, lo + span - 1]`. -/
theorem randomInRange_bounds (lo span : Nat) (u : ℚ) (hspan : 0 < span)
    (h0 : 0 ≤ u) (h1 : u < 1) :
    lo ≤ randomInRange lo span u ∧ randomInRange lo span u ≤ lo + span - 1 := by
  have hlo : (lo : ℤ) ≤ Int.floor ((lo : ℚ) + u * (span : ℚ)) := by
    rw [Int.le_floor]
    have : 0 ≤ u * (span : ℚ) := mul_nonneg h0 (by positivity)
    push_cast
    linarith
  have hhi : Int.floor ((lo : ℚ) + u * (span : ℚ)) < (lo : ℤ) + (span : ℤ) := by
    rw [Int.floor_lt]
    have : u * (span : ℚ) < 1 * (span : ℚ) := by
      apply mul_lt_mul_of_pos_right h1
      exact_mod_cast hspan
    push_cast
    linarith
  constructor
  · have := Int.toNat_le_toNat hlo
    simpa [randomInRange] using this
  · have hle : Int.floor ((lo : ℚ) + u * (span : ℚ)) ≤ (lo : ℤ) + (span : ℤ) - 1 := by
      omega
    have := Int.toNat_le_toNat hle
    have hcast : ((lo : ℤ) + (span : ℤ) - 1).toNat = lo + span - 1 := by omega
    rw [hcast] at this
    simpa [randomInRange] using this

/-- At the draw `u = 0` the generated number is exactly the lower bound. -/
theorem randomInRange_zero (lo span : Nat) : randomInRange lo span 0 = lo := by
  unfold randomInRange
  rw [zero_mul, add_zero, Int.floor_natCast]
  simp

/-! ### Corollaries at the level of the handlers -/

theorem findOrder_uploadReceipt (db : DB α) (oid fn pc ht : String) :
    findOrder (uploadReceipt db oid (some fn) pc ht).1 oid =
      (findOrder db oid).map (attachReceipt (mkFileUrl pc ht fn)) := by
  show (updateFirst (fun o => o.orderId == oid) (attachReceipt (mkFileUrl pc ht fn)) db.orders).find?
      (fun o => o.orderId == oid) = _
  exact find?_updateFirst _ _ _ (fun x hx => hx)

theorem findOrder_updateStatus (db : DB α) (oid s : String) :
    findOrder (updateStatus db oid s).1 oid = (findOrder db oid).map (setStatus s) := by
  show (updateFirst (fun o => o.orderId == oid) (setStatus s) db.orders).find?
      (fun o => o.orderId == oid) = _
  exact find?_updateFirst _ _ _ (fun x hx => hx)

theorem findCart_cartReplace (db : DB α) (sid : String) (its : List α) (now : Nat) :
    findCart (cartReplace db sid its now).1 sid =
      some { sessionId := sid, items := its, updatedAt := now } := by
  have hrepl : (cartReplace db sid its now).1.carts =
      if (findCart db sid).isSome then
        updateFirst (fun c => c.sessionId == sid)
          (fun c => { c with items := its, updatedAt := now }) db.carts
      else db.carts ++ [{ sessionId := sid, items := its, updatedAt := now }] := rfl
  show (cartReplace db sid its now).1.carts.find? (fun c => c.sessionId == sid) = _
  rw [hrepl]
  cases h : findCart db sid with
  | none =>
    have hn : db.carts.find? (fun c => c.sessionId == sid) = none := h
    simp only [Option.isSome_none, Bool.false_eq_true, if_false, List.find?_append, hn]
    simp
  | some c =>
    have hc : c.sessionId = sid := by simpa using List.find?_some h
    simp only [Option.isSome_some, if_true]
    rw [find?_updateFirst (fun c => c.sessionId == sid)
      (fun c => { c with items := its, updatedAt := now }) db.carts (fun x hx => hx)]
    have hs : db.carts.find? (fun c => c.sessionId == sid) = some c := h
    rw [hs]
    simp [hc]

/-! ### Frame relations and operation sequences (for the frame/no-delete claim) -/

/-- All fields agree except possibly `status` (the only field the status
handler's `$set` touches). -/
def sameExceptStatus (o o2 : Order α) : Prop :=
  o2.orderId = o.orderId ∧ o2.createdAt = o.createdAt ∧ o2.customer = o.customer ∧
  o2.items = o.items ∧ o2.paymentMethod = o.paymentMethod ∧
  o2.deliveryMethod = o.deliveryMethod ∧ o2.subtotal = o.subtotal ∧
  o2.shippingFee = o.shippingFee ∧ o2.total = o.total ∧ o2.receiptImg = o.receiptImg

/-- All fields agree except possibly `status` and `receiptImg` (the fields the
receipt-upload handler's `$set` touches); in particular `orderId` and
`createdAt` agree. -/
def sameExceptStatusReceipt (o o2 : Order α) : Prop :=
  o2.orderId = o.orderId ∧ o2.createdAt = o.createdAt ∧ o2.customer = o.customer ∧
  o2.items = o.items ∧ o2.paymentMethod = o.paymentMethod ∧
  o2.deliveryMethod = o.deliveryMethod ∧ o2.subtotal = o.subtotal ∧
  o2.shippingFee = o.shippingFee ∧ o2.total = o.total

theorem sameExceptStatusReceipt_refl (o : Order α) : sameExceptStatusReceipt o o :=
  ⟨rfl, rfl, rfl, rfl, rfl, rfl, rfl, rfl, rfl⟩

theorem sameExceptStatusReceipt_trans (a b c : Order α)
    (h1 : sameExceptStatusReceipt a b) (h2 : sameExceptStatusReceipt b c) :
    sameExceptStatusReceipt a c := by
  obtain ⟨e1, e2, e3, e4, e5, e6, e7, e8, e9⟩ := h1
  obtain ⟨f1, f2, f3, f4, f5, f6, f7, f8, f9⟩ := h2
  exact ⟨f1.trans e1, f2.trans e2, f3.trans e3, f4.trans e4, f5.trans e5,
    f6.trans e6, f7.trans e7, f8.trans e8, f9.trans e9⟩

/-- The two order-mutating operations of the system (the status-update and the
receipt-upload endpoints), for reasoning about arbitrary sequences of them. -/
inductive AdminOp (α : Type) where
  | updStatus (oid s : String)
  | attach (oid : String) (file : Option String) (protocol host : String)

/-- State effect of one order-mutating operation. -/
def applyOp (db : DB α) : AdminOp α → DB α
  | .updStatus oid s => (updateStatus db oid s).1
  | .attach oid file protocol host => (uploadReceipt db oid file protocol host).1

/-- State effect of a sequence of order-mutating operations. -/
def applyOps (db : DB α) (ops : List (AdminOp α)) : DB α :=
  ops.foldl applyOp db

theorem forall2_orders_applyOp (db : DB α) (op : AdminOp α) :
    List.Forall₂ sameExceptStatusReceipt db.orders (applyOp db op).orders := by
  cases op with
  | updStatus oid s =>
    exact forall2_updateFirst _ _ _ _ sameExceptStatusReceipt_refl
      (fun x => ⟨rfl, rfl, rfl, rfl, rfl, rfl, rfl, rfl, rfl⟩)
  | attach oid file protocol host =>
    cases file with
    | none => exact List.forall₂_same.mpr fun y _ => sameExceptStatusReceipt_refl y
    | some fn =>
      exact forall2_updateFirst _ _ _ _ sameExceptStatusReceipt_refl
        (fun x => ⟨rfl, rfl, rfl, rfl, rfl, rfl, rfl, rfl, rfl⟩)

theorem forall2_orders_applyOps (db : DB α) (ops : List (AdminOp α)) :
    List.Forall₂ sameExceptStatusReceipt db.orders (applyOps db ops).orders := by
  induction ops generalizing db with
  | nil => exact List.forall₂_same.mpr fun y _ => sameExceptStatusReceipt_refl y
  | cons op ops ih =>
    have h1 := forall2_orders_applyOp db op
    have h2 := ih (applyOp db op)
    exact forall2_trans_of_trans _ sameExceptStatusReceipt_trans h1 h2

/-! ### Concrete sample data (used by witnesses and counterexamples) -/

/-- An empty database over `Nat`-valued items. -/
def dbNat0 : DB Nat := { orders := [], carts := [] }

/-- A concrete order. -/
def sampleOrder : Order Nat :=
  { orderId := "EQ-4821-555"
    customer := { name := "Ana", email := some "ana@example.com", address := none }
    items := [1, 2]
    paymentMethod := some "GCash"
    deliveryMethod := some "Pickup"
    subtotal := some 90
    shippingFee := some 10
    total := some 100
    status := "Awaiting Payment"
    receiptImg := none
    createdAt := 7 }

/-- A database holding exactly `sampleOrder`. -/
def dbOne : DB Nat := { orders := [sampleOrder], carts := [] }

/-- A create payload carrying no `orderId`. -/
def payloadNoId : OrderPayload Nat :=
  { orderId := none
    customerName := some "Ana"
    customerEmail := none
    customerAddress := none
    items := [3]
    paymentMethod := some "GCash"
    deliveryMethod := none
    subtotal := some 100
    shippingFee := none
    total := some 100
    status := none
    receiptImg := none
    createdAt := none }

/-! ### Claims -/

/-- C1, counterexample: the claim says the receipt-upload response is "500 on
failure, including the case where no order with the given orderId exists". On
the empty database no order matches `EQ-1234`, yet the handler answers
200 with `success: true` (the `findOneAndUpdate` miss does not throw). -/
theorem uploadReceipt_notFound_answers_200 :
    findOrder dbNat0 "EQ-1234" = none ∧
    (uploadReceipt dbNat0 "EQ-1234" (some "receipt-1.jpg") "http" "localhost:10000").2.http = 200 ∧
    (uploadReceipt dbNat0 "EQ-1234" (some "receipt-1.jpg") "http" "localhost:10000").2.success = true ∧
    (uploadReceipt dbNat0 "EQ-1234" (some "receipt-1.jpg") "http" "localhost:10000").2.http ≠ 500 :=
  ⟨rfl, rfl, rfl, by decide⟩

/-- C1 (amended): for `POST /upload-receipt/{orderId}`, whenever the request
carries a file the response is 200 with the file URL and the updated order,
also when no order with the given orderId exists — in that case the state is
unchanged and the returned order is null (a success-shaped no-op, not a 500);
500 arises when the handler throws, e.g. when the request carries no file. -/
theorem uploadReceipt_response_spec (db : DB α) (oid fn pc ht : String) :
    ((uploadReceipt db oid (some fn) pc ht).2.http = 200 ∧
     (uploadReceipt db oid (some fn) pc ht).2.success = true ∧
     (uploadReceipt db oid (some fn) pc ht).2.fileUrl = some (mkFileUrl pc ht fn) ∧
     (uploadReceipt db oid (some fn) pc ht).2.order =
       (findOrder db oid).map (attachReceipt (mkFileUrl pc ht fn)) ∧
     (findOrder db oid = none →
       (uploadReceipt db oid (some fn) pc ht).1 = db ∧
       (uploadReceipt db oid (some fn) pc ht).2.order = none)) ∧
    ((uploadReceipt db oid none pc ht).2.http = 500 ∧
     (uploadReceipt db oid none pc ht).2.success = false ∧
     (uploadReceipt db oid none pc ht).1 = db) := by
  refine ⟨⟨rfl, rfl, rfl, findOrder_uploadReceipt db oid fn pc ht, ?_⟩, rfl, rfl, rfl⟩
  intro h
  have horders : updateFirst (fun o => o.orderId == oid)
      (attachReceipt (mkFileUrl pc ht fn)) db.orders = db.orders :=
    updateFirst_of_find?_none _ _ _ h
  have hdb : (uploadReceipt db oid (some fn) pc ht).1 =
      { db with orders := updateFirst (fun o => o.orderId == oid) (attachReceipt (mkFileUrl pc ht fn)) db.orders } := rfl
  constructor
  · rw [hdb, horders]
  · have h2 := findOrder_uploadReceipt db oid fn pc ht
    rw [h] at h2
    exact h2

/-- Witness for C1's theorem at a concrete input: on the empty database the
upload is a success-shaped no-op, and dropping the file yields the 500. -/
theorem uploadReceipt_response_spec_witness :
    (uploadReceipt dbNat0 "EQ-1234" (some "receipt-2.jpg") "http" "localhost:10000").1 = dbNat0 ∧
    (uploadReceipt dbNat0 "EQ-1234" (some "receipt-2.jpg") "http" "localhost:10000").2.order = none ∧
    (uploadReceipt dbNat0 "EQ-1234" none "http" "localhost:10000").2.http = 500 :=
  ⟨((uploadReceipt_response_spec dbNat0 "EQ-1234" "receipt-2.jpg" "http" "localhost:10000").1.2.2.2.2 rfl).1,
   ((uploadReceipt_response_spec dbNat0 "EQ-1234" "receipt-2.jpg" "http" "localhost:10000").1.2.2.2.2 rfl).2,
   (uploadReceipt_response_spec dbNat0 "EQ-1234" "receipt-2.jpg" "http" "localhost:10000").2.1⟩

/-- C2 (confirmed): for every existing order and every uploaded file,
`AttachReceipt` (the receipt-upload handler's `$set`) sets `receiptImg` to the
built file URL and forces `status` to `Pending Verification` regardless of the
order's prior status, and a second application leaves `status` exactly as
after the first (idempotent in effect on `status`) while `receiptImg` tracks
the latest supplied reference. -/
theorem attachReceipt_forces_pending (db : DB α) (oid : String) (o : Order α)
    (fn1 fn2 pc1 ht1 pc2 ht2 : String)
    (hfound : findOrder db oid = some o) :
    findOrder (uploadReceipt db oid (some fn1) pc1 ht1).1 oid =
      some { o with receiptImg := some (mkFileUrl pc1 ht1 fn1)
                    status := "Pending Verification" } ∧
    (findOrder (uploadReceipt db oid (some fn1) pc1 ht1).1 oid).map Order.status =
      some "Pending Verification" ∧
    (findOrder (uploadReceipt (uploadReceipt db oid (some fn1) pc1 ht1).1 oid
        (some fn2) pc2 ht2).1 oid).map Order.status =
      (findOrder (uploadReceipt db oid (some fn1) pc1 ht1).1 oid).map Order.status ∧
    (findOrder (uploadReceipt (uploadReceipt db oid (some fn1) pc1 ht1).1 oid
        (some fn2) pc2 ht2).1 oid).map Order.receiptImg =
      some (some (mkFileUrl pc2 ht2 fn2)) := by
  have h1 := findOrder_uploadReceipt db oid fn1 pc1 ht1
  rw [hfound] at h1
  have h2 := findOrder_uploadReceipt (uploadReceipt db oid (some fn1) pc1 ht1).1 oid fn2 pc2 ht2
  rw [h1] at h2
  refine ⟨h1, ?_, ?_, ?_⟩
  · rw [h1]; rfl
  · rw [h2, h1]; rfl
  · rw [h2]; rfl

/-- Witness for C2's theorem on a concrete one-order database. -/
theorem attachReceipt_forces_pending_witness :
    findOrder (uploadReceipt dbOne "EQ-4821-555" (some "receipt-1.jpg") "http" "hostA").1 "EQ-4821-555" =
      some { sampleOrder with receiptImg := some (mkFileUrl "http" "hostA" "receipt-1.jpg")
                              status := "Pending Verification" } ∧
    (findOrder (uploadReceipt dbOne "EQ-4821-555" (some "receipt-1.jpg") "http" "hostA").1 "EQ-4821-555").map Order.status =
      some "Pending Verification" ∧
    (findOrder (uploadReceipt (uploadReceipt dbOne "EQ-4821-555" (some "receipt-1.jpg") "http" "hostA").1 "EQ-4821-555"
        (some "receipt-2.png") "https" "hostB").1 "EQ-4821-555").map Order.status =
      (findOrder (uploadReceipt dbOne "EQ-4821-555" (some "receipt-1.jpg") "http" "hostA").1 "EQ-4821-555").map Order.status ∧
    (findOrder (uploadReceipt (uploadReceipt dbOne "EQ-4821-555" (some "receipt-1.jpg") "http" "hostA").1 "EQ-4821-555"
        (some "receipt-2.png") "https" "hostB").1 "EQ-4821-555").map Order.receiptImg =
      some (some (mkFileUrl "https" "hostB" "receipt-2.png")) :=
  attachReceipt_forces_pending dbOne "EQ-4821-555" sampleOrder
    "receipt-1.jpg" "receipt-2.png" "http" "hostA" "https" "hostB" rfl

/-- C3 (confirmed): `UpdateStatus` answers 200/success, replaces the matching
order's status unconditionally with the supplied value and returns the updated
record when the order exists; when no order matches it performs no state
change and still reports the success-shaped output (with a null order). -/
theorem updateStatus_spec (db : DB α) (oid s : String) :
    (updateStatus db oid s).2.http = 200 ∧
    (updateStatus db oid s).2.success = true ∧
    (updateStatus db oid s).2.order = (findOrder db oid).map (setStatus s) ∧
    (∀ o, findOrder db oid = some o →
      findOrder (updateStatus db oid s).1 oid = some { o with status := s } ∧
      (updateStatus db oid s).2.order = some { o with status := s }) ∧
    (findOrder db oid = none →
      (updateStatus db oid s).1 = db ∧ (updateStatus db oid s).2.order = none) := by
  refine ⟨rfl, rfl, findOrder_updateStatus db oid s, ?_, ?_⟩
  · intro o ho
    have h := findOrder_updateStatus db oid s
    rw [ho] at h
    exact ⟨h, h⟩
  · intro h
    have horders : updateFirst (fun o => o.orderId == oid) (setStatus s) db.orders = db.orders :=
      updateFirst_of_find?_none _ _ _ h
    have hdb : (updateStatus db oid s).1 =
        { db with orders := updateFirst (fun o => o.orderId == oid) (setStatus s) db.orders } := rfl
    refine ⟨by rw [hdb, horders], ?_⟩
    have h2 := findOrder_updateStatus db oid s
    rw [h] at h2
    exact h2

/-- Witness for C3's theorem: the found and the not-found branch at concrete
inputs. -/
theorem updateStatus_spec_witness :
    findOrder (updateStatus dbOne "EQ-4821-555" "Shipped").1 "EQ-4821-555" =
      some { sampleOrder with status := "Shipped" } ∧
    (updateStatus dbOne "EQ-4821-555" "Shipped").2.order =
      some { sampleOrder with status := "Shipped" } ∧
    (updateStatus dbNat0 "EQ-0000" "Shipped").1 = dbNat0 ∧
    (updateStatus dbNat0 "EQ-0000" "Shipped").2.order = none ∧
    (updateStatus dbNat0 "EQ-0000" "Shipped").2.http = 200 :=
  ⟨((updateStatus_spec dbOne "EQ-4821-555" "Shipped").2.2.2.1 sampleOrder rfl).1,
   ((updateStatus_spec dbOne "EQ-4821-555" "Shipped").2.2.2.1 sampleOrder rfl).2,
   ((updateStatus_spec dbNat0 "EQ-0000" "Shipped").2.2.2.2 rfl).1,
   ((updateStatus_spec dbNat0 "EQ-0000" "Shipped").2.2.2.2 rfl).2,
   (updateStatus_spec dbNat0 "EQ-0000" "Shipped").1⟩

/-- C4 (confirmed): for every payload without a supplied `orderId` and random
draws `u1, u2` in `[0,1)`, Create generates `EQ-` followed by a 4-digit number
in `[1000,9999]`, a dash and a 3-digit number in `[100,999]`, persists the new
order (assuming the generated id is fresh, the persistence layer's uniqueness
backstop), answers 201 with that id and the created record, and the order is
subsequently retrievable by that id (both by lookup and through tracking). -/
theorem createOrder_generated_id_spec (db : DB α) (p : OrderPayload α)
    (u1 u2 : ℚ) (now : Nat)
    (hp : p.orderId = none)
    (hu1 : 0 ≤ u1) (hu1' : u1 < 1) (hu2 : 0 ≤ u2) (hu2' : u2 < 1)
    (hfresh : findOrder db (randomRef u1 u2) = none) :
    (createOrder db p u1 u2 now).2.http = 201 ∧
    (createOrder db p u1 u2 now).2.success = true ∧
    (∃ a b, 1000 ≤ a ∧ a ≤ 9999 ∧ 100 ≤ b ∧ b ≤ 999 ∧
      (createOrder db p u1 u2 now).2.orderId = some ("EQ-" ++ toString a ++ "-" ++ toString b)) ∧
    (createOrder db p u1 u2 now).2.order = some (mkOrder p (randomRef u1 u2) now) ∧
    findOrder (createOrder db p u1 u2 now).1 (randomRef u1 u2) =
      some (mkOrder p (randomRef u1 u2) now) ∧
    (track (createOrder db p u1 u2 now).1 (randomRef u1 u2)).http = 200 := by
  have hoid : jsOr p.orderId (randomRef u1 u2) = randomRef u1 u2 := by
    rw [hp]; rfl
  have hres : createOrder db p u1 u2 now =
      ({ db with orders := db.orders ++ [mkOrder p (randomRef u1 u2) now] },
       { http := 201, success := true, orderId := some (randomRef u1 u2)
         order := some (mkOrder p (randomRef u1 u2) now), message := none }) := by
    simp only [createOrder]
    rw [hoid, hfresh]
    rfl
  have hfind : findOrder (createOrder db p u1 u2 now).1 (randomRef u1 u2) =
      some (mkOrder p (randomRef u1 u2) now) := by
    rw [hres]
    show (db.orders ++ [mkOrder p (randomRef u1 u2) now]).find?
      (fun o => o.orderId == randomRef u1 u2) = _
    rw [List.find?_append]
    have hn : db.orders.find? (fun o => o.orderId == randomRef u1 u2) = none := hfresh
    rw [hn]
    simp [mkOrder]
  refine ⟨by rw [hres], by rw [hres], ?_, by rw [hres], hfind, by simp [track, hfind]⟩
  obtain ⟨ha1, ha2⟩ := randomInRange_bounds 1000 9000 u1 (by norm_num) hu1 hu1'
  obtain ⟨hb1, hb2⟩ := randomInRange_bounds 100 900 u2 (by norm_num) hu2 hu2'
  exact ⟨randomInRange 1000 9000 u1, randomInRange 100 900 u2,
    ha1, by omega, hb1, by omega, by rw [hres]; rfl⟩

/-- Witness for C4's theorem at the concrete draws `u1 = u2 = 0` on the empty
database (generated id `EQ-1000-100`). -/
theorem createOrder_generated_id_spec_witness :
    (createOrder dbNat0 payloadNoId 0 0 5).2.http = 201 ∧
    (createOrder dbNat0 payloadNoId 0 0 5).2.success = true ∧
    (∃ a b, 1000 ≤ a ∧ a ≤ 9999 ∧ 100 ≤ b ∧ b ≤ 999 ∧
      (createOrder dbNat0 payloadNoId 0 0 5).2.orderId = some ("EQ-" ++ toString a ++ "-" ++ toString b)) ∧
    (createOrder dbNat0 payloadNoId 0 0 5).2.order = some (mkOrder payloadNoId (randomRef 0 0) 5) ∧
    findOrder (createOrder dbNat0 payloadNoId 0 0 5).1 (randomRef 0 0) =
      some (mkOrder payloadNoId (randomRef 0 0) 5) ∧
    (track (createOrder dbNat0 payloadNoId 0 0 5).1 (randomRef 0 0)).http = 200 :=
  createOrder_generated_id_spec dbNat0 payloadNoId 0 0 5 rfl
    (le_refl 0) (by norm_num) (le_refl 0) (by norm_num) rfl

/-- C5 (confirmed): across every sequence of status-update and receipt-upload
operations, every order keeps its `orderId`, `createdAt` and all fields other
than `status` and `receiptImg`; a single status update changes nothing but
`status`, a single receipt upload nothing but `receiptImg` and `status`; no
operation of the system removes an order (sequences preserve the order count,
creation only appends, and the cart endpoints leave the orders untouched;
tracking, listing and login do not touch the database at all). -/
theorem order_frame_and_no_delete (db : DB α) (ops : List (AdminOp α))
    (oid s : String) (file : Option String) (pc ht sid : String)
    (its : List α) (p : OrderPayload α) (u1 u2 : ℚ) (now now2 : Nat) :
    List.Forall₂ sameExceptStatusReceipt db.orders (applyOps db ops).orders ∧
    (applyOps db ops).orders.length = db.orders.length ∧
    List.Forall₂ sameExceptStatus db.orders (updateStatus db oid s).1.orders ∧
    List.Forall₂ sameExceptStatusReceipt db.orders (uploadReceipt db oid file pc ht).1.orders ∧
    (∃ t, (createOrder db p u1 u2 now).1.orders = db.orders ++ t) ∧
    (cartReplace db sid its now2).1.orders = db.orders ∧
    (cartClear db sid).1.orders = db.orders := by
  refine ⟨forall2_orders_applyOps db ops,
    ((forall2_orders_applyOps db ops).length_eq).symm, ?_,
    forall2_orders_applyOp db (.attach oid file pc ht), ?_, rfl, rfl⟩
  · exact forall2_updateFirst _ _ _ _
      (fun x => ⟨rfl, rfl, rfl, rfl, rfl, rfl, rfl, rfl, rfl, rfl⟩)
      (fun x => ⟨rfl, rfl, rfl, rfl, rfl, rfl, rfl, rfl, rfl, rfl⟩)
  · by_cases hc : (findOrder db (jsOr p.orderId (randomRef u1 u2))).isSome = true
    · refine ⟨[], ?_⟩
      have hdb : (createOrder db p u1 u2 now).1 = db := by
        simp only [createOrder]
        rw [if_pos hc]
      rw [hdb, List.append_nil]
    · refine ⟨[mkOrder p (jsOr p.orderId (randomRef u1 u2)) now], ?_⟩
      have hdb : (createOrder db p u1 u2 now).1 =
          { db with orders := db.orders ++ [mkOrder p (jsOr p.orderId (randomRef u1 u2)) now] } := by
        simp only [createOrder]
        rw [if_neg hc]
      rw [hdb]

/-- C6 (confirmed): tracking is an exact-match lookup, answers a distinct 404
`Order not found` (never the generic 500) on a miss, and on a hit reports the
order's status, customer name, total, orderId and createdAt. -/
theorem track_spec (db : DB α) (oid : String) :
    (findOrder db oid = none →
      (track db oid).http = 404 ∧ (track db oid).success = false ∧
      (track db oid).message = some "Order not found" ∧ (track db oid).http ≠ 500) ∧
    (∀ o, findOrder db oid = some o →
      o.orderId = oid ∧
      (track db oid).http = 200 ∧ (track db oid).success = true ∧
      (track db oid).status = some o.status ∧
      (track db oid).customerName = some o.customer.name ∧
      (track db oid).total = o.total ∧
      (track db oid).orderId = some oid ∧
      (track db oid).createdAt = some o.createdAt) := by
  constructor
  · intro h
    have ht : track db oid =
        { http := 404, success := false, message := some "Order not found"
          status := none, customerName := none, total := none
          orderId := none, createdAt := none } := by
      unfold track
      rw [h]
    rw [ht]
    exact ⟨rfl, rfl, rfl, by decide⟩
  · intro o h
    have hid : o.orderId = oid := by simpa using List.find?_some h
    have ht : track db oid =
        { http := 200, success := true, message := none
          status := some o.status, customerName := some o.customer.name
          total := o.total, orderId := some o.orderId, createdAt := some o.createdAt } := by
      unfold track
      rw [h]
    rw [ht]
    exact ⟨hid, rfl, rfl, rfl, rfl, rfl, by rw [hid], rfl⟩

/-- Witness for C6's theorem: a miss on the empty database and a hit on the
one-order database. -/
theorem track_spec_witness :
    (track dbNat0 "EQ-9999").http = 404 ∧
    (track dbNat0 "EQ-9999").message = some "Order not found" ∧
    (track dbOne "EQ-4821-555").http = 200 ∧
    (track dbOne "EQ-4821-555").status = some "Awaiting Payment" ∧
    (track dbOne "EQ-4821-555").customerName = some "Ana" ∧
    (track dbOne "EQ-4821-555").total = some 100 ∧
    (track dbOne "EQ-4821-555").orderId = some "EQ-4821-555" ∧
    (track dbOne "EQ-4821-555").createdAt = some 7 :=
  ⟨((track_spec dbNat0 "EQ-9999").1 rfl).1,
   ((track_spec dbNat0 "EQ-9999").1 rfl).2.2.1,
   ((track_spec dbOne "EQ-4821-555").2 sampleOrder rfl).2.1,
   ((track_spec dbOne "EQ-4821-555").2 sampleOrder rfl).2.2.2.1,
   ((track_spec dbOne "EQ-4821-555").2 sampleOrder rfl).2.2.2.2.1,
   ((track_spec dbOne "EQ-4821-555").2 sampleOrder rfl).2.2.2.2.2.1,
   ((track_spec dbOne "EQ-4821-555").2 sampleOrder rfl).2.2.2.2.2.2.1,
   ((track_spec dbOne "EQ-4821-555").2 sampleOrder rfl).2.2.2.2.2.2.2⟩

/-- C7 (confirmed): `Cart.Replace` wholly overwrites the session's cart
(creating it when absent and refreshing `updatedAt`) and answers 200; a
`Cart.Get` immediately after returns exactly the items passed to `Replace`,
with no merging with any prior contents. -/
theorem cartReplace_then_get (db : DB α) (sid : String) (its : List α) (now : Nat) :
    (cartReplace db sid its now).2.http = 200 ∧
    (cartReplace db sid its now).2.success = true ∧
    findCart (cartReplace db sid its now).1 sid =
      some { sessionId := sid, items := its, updatedAt := now } ∧
    (cartGet (cartReplace db sid its now).1 sid).items = its ∧
    (cartGet (cartReplace db sid its now).1 sid).sessionId = sid ∧
    (cartGet (cartReplace db sid its now).1 sid).updatedAt = some now ∧
    (cartGet (cartReplace db sid its now).1 sid).http = 200 := by
  have hf := findCart_cartReplace db sid its now
  have hg : cartGet (cartReplace db sid its now).1 sid =
      { http := 200, sessionId := sid, items := its, updatedAt := some now } := by
    unfold cartGet
    rw [hf]
  rw [hg]
  exact ⟨rfl, rfl, hf, rfl, rfl, rfl, rfl⟩

/-- C8 (confirmed): `Cart.Get` on a session with no stored cart answers 200
with a synthesized empty cart (`items: []`, carrying the queried session id
and no `updatedAt`), never an error. -/
theorem cartGet_missing_session (db : DB α) (sid : String)
    (h : findCart db sid = none) :
    (cartGet db sid).http = 200 ∧
    (cartGet db sid).items = ([] : List α) ∧
    (cartGet db sid).sessionId = sid ∧
    (cartGet db sid).updatedAt = none := by
  have hg : cartGet db sid =
      { http := 200, sessionId := sid, items := [], updatedAt := none } := by
    unfold cartGet
    rw [h]
  rw [hg]
  exact ⟨rfl, rfl, rfl, rfl⟩

/-- Witness for C8's theorem: a session with no cart on the empty database. -/
theorem cartGet_missing_session_witness :
    (cartGet dbNat0 "sess-1").http = 200 ∧
    (cartGet dbNat0 "sess-1").items = ([] : List Nat) ∧
    (cartGet dbNat0 "sess-1").sessionId = "sess-1" ∧
    (cartGet dbNat0 "sess-1").updatedAt = none :=
  cartGet_missing_session dbNat0 "sess-1" rfl

/-- The success condition exactly as claim C9 words it: the submitted password
is string-equal to the configured secret, or to the hardcoded fallback default
when no secret is configured. -/
def claimedLoginSuccess (adminPassword : Option String) (password : String) : Prop :=
  (∃ s, adminPassword = some s ∧ password = s) ∨
  (adminPassword = none ∧ password = "equineadmin123")

/-- C9, counterexample: with the environment secret configured as the empty
string, the empty password is string-equal to the configured secret (so the
claim requires success), yet the handler answers 401: the JavaScript `||`
treats a configured empty secret as unconfigured and compares against the
fallback instead. -/
theorem adminLogin_empty_secret_counterexample :
    claimedLoginSuccess (some "") "" ∧
    (adminLogin (some "") "").http = 401 ∧
    (adminLogin (some "") "").success = false ∧
    (adminLogin (some "") "").token = none :=
  ⟨Or.inl ⟨"", rfl, rfl⟩, rfl, rfl, rfl⟩

/-- Modelled from the spec, amended claim C9: the effective secret is the
configured one when it is configured and nonempty, and the hardcoded fallback
default otherwise (a configured empty secret behaves as unconfigured). -/
def amendedLoginSuccess (adminPassword : Option String) (password : String) : Prop :=
  match adminPassword with
  | none => password = "equineadmin123"
  | some s => if s = "" then password = "equineadmin123" else password = s

/-- C9 (amended): admin login succeeds (200 with the static opaque token)
exactly when the submitted password is string-equal to the effective secret —
the configured secret when configured and nonempty, the hardcoded fallback
default otherwise; any other password, including partial or case-insensitive
matches of the secret, yields 401 with no token. -/
theorem adminLogin_spec (adminPassword : Option String) (password : String) :
    ((adminLogin adminPassword password).http = 200 ↔
      amendedLoginSuccess adminPassword password) ∧
    (amendedLoginSuccess adminPassword password →
      (adminLogin adminPassword password).success = true ∧
      (adminLogin adminPassword password).token = some "secure_admin_session_active") ∧
    (¬ amendedLoginSuccess adminPassword password →
      (adminLogin adminPassword password).http = 401 ∧
      (adminLogin adminPassword password).success = false ∧
      (adminLogin adminPassword password).token = none) := by
  have hv : amendedLoginSuccess adminPassword password ↔
      password = jsOr adminPassword "equineadmin123" := by
    cases adminPassword with
    | none => simp [amendedLoginSuccess, jsOr]
    | some s =>
      by_cases hs : s = ""
      · simp [amendedLoginSuccess, jsOr, hs]
      · simp [amendedLoginSuccess, jsOr, hs]
  by_cases hpw : password = jsOr adminPassword "equineadmin123"
  · have ha : adminLogin adminPassword password =
        { http := 200, success := true, token := some "secure_admin_session_active"
          message := none } := by
      simp only [adminLogin]
      rw [if_pos hpw]
    rw [ha]
    exact ⟨iff_of_true rfl (hv.mpr hpw), fun _ => ⟨rfl, rfl⟩,
      fun hn => absurd (hv.mpr hpw) hn⟩
  · have ha : adminLogin adminPassword password =
        { http := 401, success := false, token := none
          message := some "Unauthorized" } := by
      simp only [adminLogin]
      rw [if_neg hpw]
    rw [ha]
    exact ⟨iff_of_false (by decide) (fun hx => hpw (hv.mp hx)),
      fun hsucc => absurd (hv.mp hsucc) hpw, fun _ => ⟨rfl, rfl, rfl⟩⟩

/-- Witness for C9's theorem: the default secret logs in when nothing is
configured; a case-variant and a truncation of it are refused. -/
theorem adminLogin_spec_witness :
    (adminLogin none "equineadmin123").success = true ∧
    (adminLogin none "equineadmin123").token = some "secure_admin_session_active" ∧
    (adminLogin none "EQUINEADMIN123").http = 401 ∧
    (adminLogin none "equineadmin12").token = none :=
  ⟨((adminLogin_spec none "equineadmin123").2.1 rfl).1,
   ((adminLogin_spec none "equineadmin123").2.1 rfl).2,
   ((adminLogin_spec none "EQUINEADMIN123").2.2
     (by show ¬ ("EQUINEADMIN123" = "equineadmin123"); decide)).1,
   ((adminLogin_spec none "equineadmin12").2.2
     (by show ¬ ("equineadmin12" = "equineadmin123"); decide)).2.2⟩

/-- A create payload carrying the empty string as its `orderId`. -/
def payloadEmptyId : OrderPayload Nat :=
  { payloadNoId with orderId := some "" }

/-- C10, counterexample: the payload contains the orderId `""`, but the falsy
check `if(!orderData.orderId)` fires on the empty string, so the handler
replaces it with the generated reference (here `EQ-1000-100`, draws
`u1 = u2 = 0`): the persisted and returned id is not the supplied one, and no
order is retrievable under the supplied id. -/
theorem createOrder_empty_id_counterexample :
    payloadEmptyId.orderId = some "" ∧
    (createOrder dbNat0 payloadEmptyId 0 0 5).2.orderId = some "EQ-1000-100" ∧
    (createOrder dbNat0 payloadEmptyId 0 0 5).2.orderId ≠ some "" ∧
    findOrder (createOrder dbNat0 payloadEmptyId 0 0 5).1 "" = none := by
  have hr : randomRef 0 0 = "EQ-1000-100" := by
    unfold randomRef
    rw [randomInRange_zero, randomInRange_zero]
    rfl
  have hj : jsOr payloadEmptyId.orderId (randomRef 0 0) = randomRef 0 0 := rfl
  have hid : (createOrder dbNat0 payloadEmptyId 0 0 5).2.orderId =
      some (jsOr payloadEmptyId.orderId (randomRef 0 0)) := rfl
  have hords : (createOrder dbNat0 payloadEmptyId 0 0 5).1.orders =
      [mkOrder payloadEmptyId (jsOr payloadEmptyId.orderId (randomRef 0 0)) 5] := rfl
  refine ⟨rfl, ?_, ?_, ?_⟩
  · rw [hid, hj, hr]
  · rw [hid, hj, hr]
    decide
  · show (createOrder dbNat0 payloadEmptyId 0 0 5).1.orders.find? (fun o => o.orderId == "") = none
    rw [hords, hj, hr]
    decide

/-- C10 (amended): for every payload containing a nonempty `orderId` string,
Create persists exactly that supplied string without any format validation (a
string not matching the `EQ-` format is accepted unchanged) and the response's
orderId equals the supplied value; a supplied empty-string orderId is falsy
and is replaced by a generated reference instead. -/
theorem createOrder_supplied_id_spec (db : DB α) (p : OrderPayload α)
    (u1 u2 : ℚ) (now : Nat) (s : String)
    (hp : p.orderId = some s) (hs : s ≠ "")
    (hfresh : findOrder db s = none) :
    (createOrder db p u1 u2 now).2.http = 201 ∧
    (createOrder db p u1 u2 now).2.success = true ∧
    (createOrder db p u1 u2 now).2.orderId = some s ∧
    (createOrder db p u1 u2 now).2.order = some (mkOrder p s now) ∧
    findOrder (createOrder db p u1 u2 now).1 s = some (mkOrder p s now) := by
  have hoid : jsOr p.orderId (randomRef u1 u2) = s := by
    rw [hp]
    simp [jsOr, hs]
  have hres : createOrder db p u1 u2 now =
      ({ db with orders := db.orders ++ [mkOrder p s now] },
       { http := 201, success := true, orderId := some s
         order := some (mkOrder p s now), message := none }) := by
    simp only [createOrder]
    rw [hoid, hfresh]
    rfl
  have hfind : findOrder (createOrder db p u1 u2 now).1 s = some (mkOrder p s now) := by
    rw [hres]
    show (db.orders ++ [mkOrder p s now]).find? (fun o => o.orderId == s) = _
    rw [List.find?_append]
    have hn : db.orders.find? (fun o => o.orderId == s) = none := hfresh
    rw [hn]
    simp [mkOrder]
  exact ⟨by rw [hres], by rw [hres], by rw [hres], by rw [hres], hfind⟩

/-- A create payload supplying a free-form, non-`EQ`-format order id. -/
def payloadCustomId : OrderPayload Nat :=
  { payloadNoId with orderId := some "free-form id 42" }

/-- Witness for C10's theorem: a non-`EQ`-format supplied id is persisted and
returned unchanged. -/
theorem createOrder_supplied_id_spec_witness :
    (createOrder dbNat0 payloadCustomId 0 0 5).2.http = 201 ∧
    (createOrder dbNat0 payloadCustomId 0 0 5).2.success = true ∧
    (createOrder dbNat0 payloadCustomId 0 0 5).2.orderId = some "free-form id 42" ∧
    (createOrder dbNat0 payloadCustomId 0 0 5).2.order =
      some (mkOrder payloadCustomId "free-form id 42" 5) ∧
    findOrder (createOrder dbNat0 payloadCustomId 0 0 5).1 "free-form id 42" =
      some (mkOrder payloadCustomId "free-form id 42" 5) :=
  createOrder_supplied_id_spec dbNat0 payloadCustomId 0 0 5 "free-form id 42"
    rfl (by decide) rfl

end Equine
